import Mathlib

/-!
Shallow embedding of the system-monitor program (`src/main.rs`): the
snapshot data model, the log-writer (`file`), the application state machine
(`Task` / `Message` / `update`) and the formatted lines of the interactive
view.  IEEE `f64`/`f32` values that the program derives from `u64` counters
are modelled exactly by the type `FVal` below: every floating-point value
the program computes (a `u64` cast, a division by a constant, a percentage)
is either NaN, a signed infinity, or a finite value that `f64` represents
exactly on the inputs the claims evaluate, so the exact rational model
coincides with the IEEE semantics there.
-/

set_option maxRecDepth 100000

namespace SysMon

/-- Model of an IEEE floating-point value as the program uses it: NaN, a
signed infinity (`pos = true` for `+∞`), or a finite value `num / den`
carried as an exact integer quotient with positive denominator. -/
inductive FVal where
  | nan : FVal
  | inf (pos : Bool) : FVal
  | fin (num : Int) (den : Int) : FVal
deriving DecidableEq

/-- IEEE division on `FVal`: NaN propagates, a nonzero finite value divided
by zero gives a signed infinity, `0 / 0` and `∞ / ∞` give NaN. -/
def FVal.div : FVal → FVal → FVal
  | .nan, _ => .nan
  | _, .nan => .nan
  | .inf _, .inf _ => .nan
  | .inf s, .fin c _ => if c = 0 then .inf s else if 0 < c then .inf s else .inf (!s)
  | .fin _ _, .inf _ => .fin 0 1
  | .fin a b, .fin c d =>
      if c = 0 then
        (if a = 0 then .nan else .inf (decide (0 < a) == decide (0 < b)))
      else
        if b * c < 0 then .fin (-(a * d)) (-(b * c)) else .fin (a * d) (b * c)

/-- IEEE multiplication on `FVal`: NaN propagates, `0 * ∞` gives NaN. -/
def FVal.mul : FVal → FVal → FVal
  | .nan, _ => .nan
  | _, .nan => .nan
  | .inf s, .inf t => .inf (s == t)
  | .inf s, .fin c _ => if c = 0 then .nan else if 0 < c then .inf s else .inf (!s)
  | .fin a _, .inf s => if a = 0 then .nan else if 0 < a then .inf s else .inf (!s)
  | .fin a b, .fin c d => .fin (a * c) (b * d)

/-- Rational value of a finite float; `none` for NaN and the infinities. -/
def FVal.value : FVal → Option ℚ
  | .fin n d => some ((n : ℚ) / (d : ℚ))
  | _ => none

/-- Round half to even of the quotient `n / d` (for `d > 0`), the rounding
Rust's float formatting applies at the last printed digit. -/
def rndHalfEven (n d : Int) : Int :=
  let q := n / d
  let r := n % d
  if 2 * r < d then q
  else if d < 2 * r then q + 1
  else if q % 2 = 0 then q else q + 1

/-- Zero-padding to two digits, as Rust `{:02}` renders a small integer. -/
def pad2 (n : Nat) : String :=
  if n < 10 then "0" ++ toString n else toString n

/-- Decimal string with two fractional digits for a nonnegative count of
hundredths. -/
def hundredths (n : Nat) : String :=
  toString (n / 100) ++ "." ++ pad2 (n % 100)

/-- Rust `{:.2}` formatting of a float: `NaN` and `inf` verbatim, a finite
value rounded (half to even) to two decimal places. -/
def FVal.fmt2 : FVal → String
  | .nan => "NaN"
  | .inf true => "inf"
  | .inf false => "-inf"
  | .fin n d =>
      let h := rndHalfEven (100 * n) d
      if h < 0 then "-" ++ hundredths (-h).toNat else hundredths h.toNat

/-- Rust `Vec::join`: elements separated by `sep`, empty for the empty
vector. -/
def joinSep (sep : String) : List String → String
  | [] => ""
  | [x] => x
  | x :: xs => x ++ sep ++ joinSep sep xs

/-- The `SystemInformation` struct of `main.rs`: per-core CPU usages
(`f32`), memory and swap counters (`u64`), disks as
`(name, total_space, used_space)` triples and network interfaces as
`(name, received, transmitted)` triples. -/
structure SystemInformation where
  cpu_usages : List FVal
  used_memory : Nat
  total_memory : Nat
  used_swap : Nat
  total_swap : Nat
  disks : List (String × Nat × Nat)
  networks : List (String × Nat × Nat)
deriving DecidableEq

/-- The application state enum `Task` of `main.rs`: `Loading` (the spec's
`NotLoaded`) or `Loaded` with a snapshot and the CPU-detail flag. -/
inductive Task where
  | Loading : Task
  | Loaded (information : SystemInformation) (show_cpu_usage : Bool) : Task
deriving DecidableEq

/-- The `Message` enum of `main.rs`: `Refresh` and `CpuUsage` (the spec's
`ToggleCpuUsage`). -/
inductive Message where
  | Refresh : Message
  | CpuUsage : Message
deriving DecidableEq

/-- Line 171 of `main.rs`:
`(used_memory as f64 / total_memory as f64) * 100.0`. -/
def memory_usage_percentage (info : SystemInformation) : FVal :=
  ((FVal.fin (info.used_memory : Int) 1).div (FVal.fin (info.total_memory : Int) 1)).mul
    (FVal.fin 100 1)

/-- Line 172 of `main.rs`:
`(used_swap as f64 / total_swap as f64) * 100.0`. -/
def swap_usage_percentage (info : SystemInformation) : FVal :=
  ((FVal.fin (info.used_swap : Int) 1).div (FVal.fin (info.total_swap : Int) 1)).mul
    (FVal.fin 100 1)

/-- Line 184 of `main.rs`: `(*used as f64 / *total as f64) * 100.0` for one
disk. -/
def disk_usage_percentage (total used : Nat) : FVal :=
  ((FVal.fin (used : Int) 1).div (FVal.fin (total : Int) 1)).mul (FVal.fin 100 1)

/-- Line 175 of `main.rs`: `format!("{:02}:{:02}", now.hour(), now.minute())`;
the wall-clock hour and minute are parameters of the model. -/
def formatted_time (hour minute : Nat) : String :=
  pad2 hour ++ ":" ++ pad2 minute

/-- One CPU item of the log record, line 178 of `main.rs`:
`format!("CPU {}: {:.2}%", i + 1, usage)` with `i` the 0-based index. -/
def log_cpu_item (i : Nat) (usage : FVal) : String :=
  "CPU " ++ toString (i + 1) ++ ": " ++ usage.fmt2 ++ "%"

/-- Lines 177-179 of `main.rs`: the CPU items comma-space joined. -/
def cpu_usage (info : SystemInformation) : String :=
  joinSep ", " (info.cpu_usages.enum.map (fun p => log_cpu_item p.1 p.2))

/-- One disk item of the log record, lines 183-191 of `main.rs`. -/
def log_disk_item (d : String × Nat × Nat) : String :=
  d.1 ++ ": " ++ ((FVal.fin (d.2.2 : Int) 1).div (FVal.fin 1073741824 1)).fmt2
    ++ " GB used / " ++ ((FVal.fin (d.2.1 : Int) 1).div (FVal.fin 1073741824 1)).fmt2
    ++ " GB total (" ++ (disk_usage_percentage d.2.1 d.2.2).fmt2 ++ "%)"

/-- Lines 181-192 of `main.rs`: the disk items comma-space joined. -/
def disk_usage (info : SystemInformation) : String :=
  joinSep ", " (info.disks.map (fun d => log_disk_item d))

/-- One network item of the log record, lines 195-201 of `main.rs`; the
`u64` divisions by 1024 truncate. -/
def log_network_item (n : String × Nat × Nat) : String :=
  n.1 ++ ": received " ++ toString (n.2.1 / 1024) ++ " KB / transmitted "
    ++ toString (n.2.2 / 1024) ++ " KB"

/-- Lines 194-202 of `main.rs`: the network items comma-space joined. -/
def network_usage (info : SystemInformation) : String :=
  joinSep ", " (info.networks.map (fun n => log_network_item n))

/-- The memory line of the log record, from the format string at line 205 of
`main.rs`. -/
def log_memory_line (info : SystemInformation) : String :=
  "Memory: used " ++ ((FVal.fin (info.used_memory : Int) 1).div (FVal.fin 1048576 1)).fmt2
    ++ " TB / total " ++ ((FVal.fin (info.total_memory : Int) 1).div (FVal.fin 1048576 1)).fmt2
    ++ " TB (" ++ (memory_usage_percentage info).fmt2 ++ "%)"

/-- The swap line of the log record, from the format string at line 205 of
`main.rs`. -/
def log_swap_line (info : SystemInformation) : String :=
  "Swap: used " ++ ((FVal.fin (info.used_swap : Int) 1).div (FVal.fin 1048576 1)).fmt2
    ++ " TB / total " ++ ((FVal.fin (info.total_swap : Int) 1).div (FVal.fin 1048576 1)).fmt2
    ++ " TB (" ++ (swap_usage_percentage info).fmt2 ++ "%)"

/-- The complete log record of one snapshot, the `data` string of lines
204-216 of `main.rs`. -/
def record (info : SystemInformation) (hour minute : Nat) : String :=
  "Time: " ++ formatted_time hour minute ++ "\n"
    ++ log_memory_line info ++ "\n"
    ++ log_swap_line info ++ "\n"
    ++ "CPU Usage: " ++ cpu_usage info ++ "\n"
    ++ "Disk Usage: " ++ disk_usage info ++ "\n"
    ++ "Network Usage: " ++ network_usage info ++ "\n\n"

/-- The log writer `file` of `main.rs` (lines 169-219) in terms of the
content of its single target path: `OpenOptions` with `write`, `create` and
`append` treats an absent file (`none`) as empty and never truncates, and
`write_all` appends one record.  The returned content is the file state
after a successful append. -/
def file (fs : Option String) (info : SystemInformation) (hour minute : Nat) : Option String :=
  some (fs.getD "" ++ record info hour minute)

/-- The raw provider output consumed by a `Refresh`: what `main.rs` reads
from `sysinfo` at lines 58-77 (per-core usages, memory and swap counters,
disks with total and available space, network interfaces with cumulative
counters). -/
structure RawDisk where
  name : String
  total_space : Nat
  available_space : Nat
deriving DecidableEq

/-- The provider snapshot (`sys` in `main.rs`). -/
structure Sys where
  cpus : List FVal
  used_memory : Nat
  total_memory : Nat
  used_swap : Nat
  total_swap : Nat
  disks : List RawDisk
  networks : List (String × Nat × Nat)
deriving DecidableEq

/-- Unchecked `u64` subtraction as at line 75 of `main.rs`
(`disk.total_space() - disk.available_space()`), with two's-complement
wrapping at width 64. -/
def sub64 (a b : Nat) : Nat :=
  (((a : Int) - (b : Int)) % (2 ^ 64)).toNat

/-- The `SystemInformation` constructed by the `Refresh` arm, lines 61-78 of
`main.rs`. -/
def buildInformation (sys : Sys) : SystemInformation :=
  { cpu_usages := sys.cpus
    used_memory := sys.used_memory
    total_memory := sys.total_memory
    used_swap := sys.used_swap
    total_swap := sys.total_swap
    disks := sys.disks.map (fun d => (d.name, d.total_space, sub64 d.total_space d.available_space))
    networks := sys.networks }

/-- The `update` method of `main.rs` (lines 55-96).  Besides the state it
threads the effects explicitly: `sys` is the provider output sampled by a
`Refresh`, `logFails` tells whether the log write fails (a failing write is
modelled as leaving the file unchanged), `fs` is the log-file content, and
the returned list holds the lines printed to stdout (the
`"Error writing to file"` report of line 82). -/
def update (st : Task) (message : Message) (sys : Sys) (logFails : Bool)
    (hour minute : Nat) (fs : Option String) : Task × Option String × List String :=
  match message with
  | .Refresh =>
      let information := buildInformation sys
      if logFails then
        (Task.Loaded information false, fs, ["Error writing to file"])
      else
        (Task.Loaded information false, file fs information hour minute, [])
  | .CpuUsage =>
      match st with
      | .Loaded information show_cpu_usage => (.Loaded information (!show_cpu_usage), fs, [])
      | .Loading => (.Loading, fs, [])

/-- The memory line of the view, lines 107-112 of `main.rs` (`memory_per`
computed at line 102). -/
def view_memory_line (info : SystemInformation) : String :=
  "   Memory: used " ++ ((FVal.fin (info.used_memory : Int) 1).div (FVal.fin 1048576 1)).fmt2
    ++ " TB / total " ++ ((FVal.fin (info.total_memory : Int) 1).div (FVal.fin 1048576 1)).fmt2
    ++ " TB ("
    ++ (((FVal.fin (info.used_memory : Int) 1).div (FVal.fin (info.total_memory : Int) 1)).mul
          (FVal.fin 100 1)).fmt2
    ++ "%)"

/-- The swap line of the view, lines 113-118 of `main.rs` (`swap_per`
computed at line 103). -/
def view_swap_line (info : SystemInformation) : String :=
  "   Swap: used " ++ ((FVal.fin (info.used_swap : Int) 1).div (FVal.fin 1048576 1)).fmt2
    ++ " TB / total " ++ ((FVal.fin (info.total_swap : Int) 1).div (FVal.fin 1048576 1)).fmt2
    ++ " TB ("
    ++ (((FVal.fin (info.used_swap : Int) 1).div (FVal.fin (info.total_swap : Int) 1)).mul
          (FVal.fin 100 1)).fmt2
    ++ "%)"

/-- One CPU line of the view, line 131 of `main.rs`. -/
def view_cpu_line (i : Nat) (usage : FVal) : String :=
  "          CPU " ++ toString (i + 1) ++ ": " ++ usage.fmt2 ++ "%"

/-- One disk line of the view, lines 138-145 of `main.rs`. -/
def view_disk_line (name : String) (total used : Nat) : String :=
  "           " ++ name ++ ": " ++ ((FVal.fin (used : Int) 1).div (FVal.fin 1073741824 1)).fmt2
    ++ " GB used / " ++ ((FVal.fin (total : Int) 1).div (FVal.fin 1073741824 1)).fmt2
    ++ " GB total ("
    ++ (((FVal.fin (used : Int) 1).div (FVal.fin (total : Int) 1)).mul (FVal.fin 100 1)).fmt2
    ++ "%)"

/-- One network line of the view, lines 151-156 of `main.rs`. -/
def view_network_line (name : String) (received transmitted : Nat) : String :=
  "           " ++ name ++ ": received " ++ toString (received / 1024)
    ++ " KB / transmitted " ++ toString (transmitted / 1024) ++ " KB"

/-! Concrete snapshots used by closed theorems and witnesses. -/

/-- The end-to-end sample snapshot of the spec (section 8): two cores at
10% and 20%, memory 512/1024, swap 0/0, one disk and one interface. -/
def sampleInformation : SystemInformation :=
  { cpu_usages := [FVal.fin 10 1, FVal.fin 20 1]
    used_memory := 512
    total_memory := 1024
    used_swap := 0
    total_swap := 0
    disks := [("sda", 1073741824, 536870912)]
    networks := [("eth0", 2048, 4096)] }

/-- A snapshot with a positive used counter over a zero total. -/
def posUsedZeroTotal : SystemInformation :=
  { cpu_usages := []
    used_memory := 512
    total_memory := 0
    used_swap := 0
    total_swap := 0
    disks := []
    networks := [] }

/-- A snapshot whose memory, swap and single-disk totals are all zero with
zero used counters. -/
def zeroInformation : SystemInformation :=
  { cpu_usages := []
    used_memory := 0
    total_memory := 0
    used_swap := 0
    total_swap := 0
    disks := [("sda", 0, 0)]
    networks := [] }

/-- A provider output that builds `sampleInformation`. -/
def sampleSys : Sys :=
  { cpus := [FVal.fin 10 1, FVal.fin 20 1]
    used_memory := 512
    total_memory := 1024
    used_swap := 0
    total_swap := 0
    disks := [{ name := "sda", total_space := 1073741824, available_space := 536870912 }]
    networks := [("eth0", 2048, 4096)] }

/-! Spec-side definitions, written from the words of the spec for the
refinement comparison of claim C1. -/

/-- Follows the spec (section 4.2): a memory or swap byte counter divided by
1,048,576 and printed with two decimal places. -/
def specTB (n : Nat) : String :=
  ((FVal.fin (n : Int) 1).div (FVal.fin 1048576 1)).fmt2

/-- Follows the spec (section 4.2): a disk byte counter divided by
1,073,741,824 and printed with two decimal places. -/
def specGB (n : Nat) : String :=
  ((FVal.fin (n : Int) 1).div (FVal.fin 1073741824 1)).fmt2

/-- Follows the spec's words for the record format (section 4.2): the six
labelled fields in the fixed order Time, Memory, Swap, CPU Usage,
Disk Usage, Network Usage, joined by newlines and followed by a blank line;
memory and swap counters divided by 1,048,576 with label `TB`, disk
counters divided by 1,073,741,824 with label `GB`, network counters divided
by 1024 with integer truncation and label `KB`, multiple items within a
field comma-space joined. -/
def specRecord (info : SystemInformation) (hour minute : Nat) : String :=
  joinSep "\n"
    ["Time: " ++ pad2 hour ++ ":" ++ pad2 minute,
     "Memory: used " ++ specTB info.used_memory ++ " TB / total " ++ specTB info.total_memory
       ++ " TB (" ++ (memory_usage_percentage info).fmt2 ++ "%)",
     "Swap: used " ++ specTB info.used_swap ++ " TB / total " ++ specTB info.total_swap
       ++ " TB (" ++ (swap_usage_percentage info).fmt2 ++ "%)",
     "CPU Usage: " ++ joinSep ", "
       (info.cpu_usages.enum.map (fun p =>
         "CPU " ++ toString (p.1 + 1) ++ ": " ++ p.2.fmt2 ++ "%")),
     "Disk Usage: " ++ joinSep ", "
       (info.disks.map (fun d =>
         d.1 ++ ": " ++ specGB d.2.2 ++ " GB used / " ++ specGB d.2.1
           ++ " GB total (" ++ (disk_usage_percentage d.2.1 d.2.2).fmt2 ++ "%)")),
     "Network Usage: " ++ joinSep ", "
       (info.networks.map (fun n =>
         n.1 ++ ": received " ++ toString (n.2.1 / 1024) ++ " KB / transmitted "
           ++ toString (n.2.2 / 1024) ++ " KB"))]
  ++ "\n\n"

/-! Multi-append machinery for the append-only property. -/

/-- Iterated log writes: each snapshot of the list is appended in turn,
with its wall-clock hour and minute. -/
def appendMany (fs : Option String) (snaps : List (SystemInformation × Nat × Nat)) :
    Option String :=
  snaps.foldl (fun st s => file st s.1 s.2.1 s.2.2) fs

/-- Concatenation of the records of a list of snapshots, one record per
snapshot. -/
def recordsConcat : List (SystemInformation × Nat × Nat) → String
  | [] => ""
  | s :: rest => record s.1 s.2.1 s.2.2 ++ recordsConcat rest

lemma appendMany_some (snaps : List (SystemInformation × Nat × Nat)) (c : String) :
    appendMany (some c) snaps = some (c ++ recordsConcat snaps) := by
  induction snaps generalizing c with
  | nil => simp [appendMany, recordsConcat]
  | cons s rest ih =>
      simp only [appendMany, List.foldl_cons, file, Option.getD_some] at *
      rw [ih (c ++ record s.1 s.2.1 s.2.2)]
      simp [recordsConcat, String.append_assoc]

/-! Arithmetic helper lemmas about the percentage computation. -/

lemma percent_eq (u t : Nat) (ht : 0 < t) :
    ((FVal.fin (u : Int) 1).div (FVal.fin (t : Int) 1)).mul (FVal.fin 100 1)
      = FVal.fin ((u : Int) * 100) (t : Int) := by
  have h0 : ((t : Int) = 0) = False := by simp; omega
  have h1 : ((t : Int) < 0) = False := by simp
  simp [FVal.div, FVal.mul, h0, h1]

lemma percent_value (u t : Nat) (ht : 0 < t) :
    (((FVal.fin (u : Int) 1).div (FVal.fin (t : Int) 1)).mul (FVal.fin 100 1)).value
      = some ((u : ℚ) / (t : ℚ) * 100) := by
  rw [percent_eq u t ht]
  simp only [FVal.value, Option.some_inj]
  push_cast
  rw [div_mul_eq_mul_div]

lemma percent_bounds (u t : Nat) (ht : 0 < t) (hut : u ≤ t) :
    0 ≤ (u : ℚ) / (t : ℚ) * 100 ∧ (u : ℚ) / (t : ℚ) * 100 ≤ 100 := by
  have htq : (0 : ℚ) < (t : ℚ) := by exact_mod_cast ht
  have hutq : (u : ℚ) ≤ (t : ℚ) := by exact_mod_cast hut
  constructor
  · positivity
  · have h1 : (u : ℚ) / (t : ℚ) ≤ 1 := (div_le_one htq).mpr hutq
    nlinarith

lemma percent_zero_total (u t : Nat) (ht : t = 0) :
    ((FVal.fin (u : Int) 1).div (FVal.fin (t : Int) 1)).mul (FVal.fin 100 1)
      = (if u = 0 then FVal.nan else FVal.inf true) := by
  subst ht
  rcases Nat.eq_zero_or_pos u with h | h
  · rw [h]; decide
  · have h0 : ((u : Int) = 0) = False := by simp; omega
    have hpos : (0 < (u : Int)) = True := by simp; omega
    simp [FVal.div, FVal.mul, h0, hpos, Nat.pos_iff_ne_zero.mp h]

lemma fmt2_zero_total (u t : Nat) (ht : t = 0) :
    (((FVal.fin (u : Int) 1).div (FVal.fin (t : Int) 1)).mul (FVal.fin 100 1)).fmt2
      = (if u = 0 then "NaN" else "inf") := by
  rw [percent_zero_total u t ht]
  rcases Nat.eq_zero_or_pos u with h | h
  · simp [h, FVal.fmt2]
  · simp [Nat.pos_iff_ne_zero.mp h, FVal.fmt2]

lemma joinSep_mem_decomp (sep : String) (l : List String) (x : String) (hx : x ∈ l) :
    ∃ pre post, joinSep sep l = pre ++ x ++ post := by
  induction l with
  | nil => cases hx
  | cons y ys ih =>
      rcases List.mem_cons.mp hx with rfl | hmem
      · cases ys with
        | nil =>
            refine ⟨"", "", ?_⟩
            rw [joinSep, String.append_empty, String.empty_append]
        | cons z zs =>
            refine ⟨"", sep ++ joinSep sep (z :: zs), ?_⟩
            show x ++ sep ++ joinSep sep (z :: zs) = "" ++ x ++ (sep ++ joinSep sep (z :: zs))
            rw [String.empty_append, String.append_assoc]
      · obtain ⟨pre, post, hp⟩ := ih hmem
        cases ys with
        | nil => cases hmem
        | cons z zs =>
            refine ⟨y ++ sep ++ pre, post, ?_⟩
            show y ++ sep ++ joinSep sep (z :: zs) = y ++ sep ++ pre ++ x ++ post
            rw [hp]
            simp only [String.append_assoc]

/-! The claim theorems. -/

/-- Claim C1: for every snapshot the log record has the fixed field order
Time, Memory, Swap, CPU Usage, Disk Usage, Network Usage followed by a
blank line, with the divisors 1,048,576 (`TB`), 1,073,741,824 (`GB`) and
1024 with truncation (`KB`), items comma-space joined; and an empty
CPU/disk/network sequence yields an empty joined string while the field
label is still printed (the `specRecord` equality keeps the label with
empty content). -/
theorem log_record_fixed_format : ∀ (info : SystemInformation) (hour minute : Nat),
    record info hour minute = specRecord info hour minute
    ∧ cpu_usage { info with cpu_usages := [] } = ""
    ∧ disk_usage { info with disks := [] } = ""
    ∧ network_usage { info with networks := [] } = "" := by
  intro info hour minute
  refine ⟨?_, ?_, ?_, ?_⟩
  · simp only [record, specRecord, joinSep, formatted_time, log_memory_line, log_swap_line,
      cpu_usage, log_cpu_item, disk_usage, log_disk_item, disk_usage_percentage,
      network_usage, log_network_item, specTB, specGB,
      show ("\n\n" : String) = "\n" ++ "\n" from rfl, String.append_assoc]
  · simp [cpu_usage, joinSep]
  · simp [disk_usage, joinSep]
  · simp [network_usage, joinSep]

/-- Claim C2: the log writer treats an absent file as empty and appends:
for every prior content the result is the prior content followed by exactly
one new record; appending a list of N snapshots to an initially empty file
yields the concatenation of their N records, and the first record is
unchanged after a second append. -/
theorem log_append_preserves_content : ∀ (prior : String) (info : SystemInformation)
    (hour minute : Nat) (snaps : List (SystemInformation × Nat × Nat))
    (s1 s2 : SystemInformation × Nat × Nat),
    file (some prior) info hour minute = some (prior ++ record info hour minute)
    ∧ file none info hour minute = some (record info hour minute)
    ∧ appendMany (some prior) snaps = some (prior ++ recordsConcat snaps)
    ∧ appendMany (some "") snaps = some (recordsConcat snaps)
    ∧ appendMany (some "") [s1, s2]
        = some (record s1.1 s1.2.1 s1.2.2 ++ record s2.1 s2.2.1 s2.2.2) := by
  intro prior info hour minute snaps s1 s2
  refine ⟨?_, ?_, ?_, ?_, ?_⟩
  · simp only [file, Option.getD_some]
  · simp only [file, Option.getD_none]
    rw [String.empty_append]
  · rw [appendMany_some]
  · rw [appendMany_some, String.empty_append]
  · rw [appendMany_some, recordsConcat, recordsConcat, recordsConcat, String.append_empty,
      String.empty_append]

/-- Claim C3: from every starting state a `Refresh` replaces the state with
`Loaded` over the freshly built snapshot with `show_cpu_usage = false`; the
resulting state is the same whether or not the log write fails, the failure
is only reported on stdout, and on success the log writer is invoked with
the new snapshot. -/
theorem refresh_updates_state_despite_log_failure : ∀ (st : Task) (sys : Sys)
    (logFails : Bool) (hour minute : Nat) (fs : Option String),
    (update st .Refresh sys logFails hour minute fs).1
        = Task.Loaded (buildInformation sys) false
    ∧ (update st .Refresh sys true hour minute fs).1
        = (update st .Refresh sys false hour minute fs).1
    ∧ (update st .Refresh sys logFails hour minute fs).2.2
        = (if logFails then ["Error writing to file"] else [])
    ∧ (update st .Refresh sys false hour minute fs).2.1
        = file fs (buildInformation sys) hour minute := by
  intro st sys logFails hour minute fs
  cases logFails <;> simp [update]

/-- Claim C4 counterexample: on the snapshot with `used_memory = 512` and
`total_memory = 0` the unguarded percentage is positive infinity, which is
not a not-a-number value and renders as `inf`, not `NaN`. -/
theorem zero_total_not_nan_counterexample :
    memory_usage_percentage posUsedZeroTotal = FVal.inf true
    ∧ memory_usage_percentage posUsedZeroTotal ≠ FVal.nan
    ∧ (memory_usage_percentage posUsedZeroTotal).fmt2 = "inf" := by
  decide

/-- Claim C4 as amended: each zero-total case on its own — whenever the
memory total is zero, whenever the swap total is zero, and for every disk
of the snapshot whose total is zero, the unguarded percentage is
non-finite: NaN when the used counter is also zero and positive infinity
otherwise, rendered verbatim as `NaN` or `inf`; and the record always
contains the rendered memory and swap percentage fields and the rendered
percentage field of every disk of the snapshot (no crash, no omission). -/
theorem zero_total_percent_nonfinite (info : SystemInformation) (hour minute : Nat) :
    (info.total_memory = 0 →
        memory_usage_percentage info
            = (if info.used_memory = 0 then FVal.nan else FVal.inf true)
        ∧ (memory_usage_percentage info).fmt2
            = (if info.used_memory = 0 then "NaN" else "inf"))
    ∧ (info.total_swap = 0 →
        swap_usage_percentage info
            = (if info.used_swap = 0 then FVal.nan else FVal.inf true)
        ∧ (swap_usage_percentage info).fmt2
            = (if info.used_swap = 0 then "NaN" else "inf"))
    ∧ (∀ d ∈ info.disks, d.2.1 = 0 →
        disk_usage_percentage d.2.1 d.2.2
            = (if d.2.2 = 0 then FVal.nan else FVal.inf true)
        ∧ (disk_usage_percentage d.2.1 d.2.2).fmt2
            = (if d.2.2 = 0 then "NaN" else "inf"))
    ∧ (∃ pre post, record info hour minute
        = pre ++ (memory_usage_percentage info).fmt2 ++ post)
    ∧ (∃ pre post, record info hour minute
        = pre ++ (swap_usage_percentage info).fmt2 ++ post)
    ∧ (∀ d ∈ info.disks, ∃ pre post,
        record info hour minute = pre ++ (disk_usage_percentage d.2.1 d.2.2).fmt2 ++ post) := by
  refine ⟨?_, ?_, ?_, ?_, ?_, ?_⟩
  · intro hm
    exact ⟨percent_zero_total _ _ hm, fmt2_zero_total _ _ hm⟩
  · intro hs
    exact ⟨percent_zero_total _ _ hs, fmt2_zero_total _ _ hs⟩
  · intro d hd ht
    exact ⟨percent_zero_total _ _ ht, fmt2_zero_total _ _ ht⟩
  · exact ⟨"Time: " ++ formatted_time hour minute ++ "\n" ++ "Memory: used "
        ++ ((FVal.fin (info.used_memory : Int) 1).div (FVal.fin 1048576 1)).fmt2
        ++ " TB / total "
        ++ ((FVal.fin (info.total_memory : Int) 1).div (FVal.fin 1048576 1)).fmt2
        ++ " TB (",
      "%)" ++ "\n" ++ log_swap_line info ++ "\n" ++ "CPU Usage: " ++ cpu_usage info
        ++ "\n" ++ "Disk Usage: " ++ disk_usage info ++ "\n" ++ "Network Usage: "
        ++ network_usage info ++ "\n\n",
      by simp only [record, log_memory_line, String.append_assoc]⟩
  · exact ⟨"Time: " ++ formatted_time hour minute ++ "\n" ++ log_memory_line info ++ "\n"
        ++ "Swap: used " ++ ((FVal.fin (info.used_swap : Int) 1).div (FVal.fin 1048576 1)).fmt2
        ++ " TB / total "
        ++ ((FVal.fin (info.total_swap : Int) 1).div (FVal.fin 1048576 1)).fmt2
        ++ " TB (",
      "%)" ++ "\n" ++ "CPU Usage: " ++ cpu_usage info
        ++ "\n" ++ "Disk Usage: " ++ disk_usage info ++ "\n" ++ "Network Usage: "
        ++ network_usage info ++ "\n\n",
      by simp only [record, log_swap_line, String.append_assoc]⟩
  · intro d hd
    obtain ⟨pre, post, hp⟩ :=
      joinSep_mem_decomp ", " (info.disks.map (fun d => log_disk_item d)) (log_disk_item d)
        (List.mem_map_of_mem _ hd)
    have hdu : disk_usage info = pre ++ log_disk_item d ++ post := by
      rw [disk_usage, hp]
    refine ⟨"Time: " ++ formatted_time hour minute ++ "\n" ++ log_memory_line info ++ "\n"
        ++ log_swap_line info ++ "\n" ++ "CPU Usage: " ++ cpu_usage info
        ++ "\n" ++ "Disk Usage: " ++ pre ++ d.1 ++ ": "
        ++ ((FVal.fin (d.2.2 : Int) 1).div (FVal.fin 1073741824 1)).fmt2
        ++ " GB used / " ++ ((FVal.fin (d.2.1 : Int) 1).div (FVal.fin 1073741824 1)).fmt2
        ++ " GB total (",
      "%)" ++ post ++ "\n" ++ "Network Usage: " ++ network_usage info ++ "\n\n", ?_⟩
    rw [record, hdu, log_disk_item]
    simp only [String.append_assoc]

/-- Witness for the amended claim C4: on the all-zero snapshot
`zeroInformation` every zero-total hypothesis holds by `rfl` or `decide`,
each percentage is NaN and renders `NaN`, and the record contains the
rendered memory percentage field. -/
theorem zero_total_percent_nonfinite_witness :
    zeroInformation.total_memory = 0
    ∧ zeroInformation.total_swap = 0
    ∧ ("sda", 0, 0) ∈ zeroInformation.disks
    ∧ memory_usage_percentage zeroInformation = FVal.nan
    ∧ (memory_usage_percentage zeroInformation).fmt2 = "NaN"
    ∧ swap_usage_percentage zeroInformation = FVal.nan
    ∧ disk_usage_percentage 0 0 = FVal.nan
    ∧ (disk_usage_percentage 0 0).fmt2 = "NaN"
    ∧ (∃ pre post, record zeroInformation 0 0
        = pre ++ (memory_usage_percentage zeroInformation).fmt2 ++ post) := by
  have h := zero_total_percent_nonfinite zeroInformation 0 0
  have hd := h.2.2.1 ("sda", 0, 0) (by decide) rfl
  refine ⟨rfl, rfl, by decide, ?_, ?_, ?_, ?_, ?_, h.2.2.2.1⟩
  · simpa using (h.1 rfl).1
  · simpa using (h.1 rfl).2
  · simpa using (h.2.1 rfl).1
  · simpa using hd.1
  · simpa using hd.2

/-- Claim C5: on the spec's end-to-end sample snapshot, the record (at
wall-clock 12:30) has the stated CPU, disk and network lines, and the swap
percentage is NaN while used and total swap render as `0.00 TB`. -/
theorem sample_snapshot_record :
    record sampleInformation 12 30
      = "Time: 12:30\nMemory: used 0.00 TB / total 0.00 TB (50.00%)\nSwap: used 0.00 TB / total 0.00 TB (NaN%)\nCPU Usage: CPU 1: 10.00%, CPU 2: 20.00%\nDisk Usage: sda: 0.50 GB used / 1.00 GB total (50.00%)\nNetwork Usage: eth0: received 2 KB / transmitted 4 KB\n\n"
    ∧ cpu_usage sampleInformation = "CPU 1: 10.00%, CPU 2: 20.00%"
    ∧ disk_usage sampleInformation = "sda: 0.50 GB used / 1.00 GB total (50.00%)"
    ∧ network_usage sampleInformation = "eth0: received 2 KB / transmitted 4 KB"
    ∧ swap_usage_percentage sampleInformation = FVal.nan
    ∧ log_swap_line sampleInformation = "Swap: used 0.00 TB / total 0.00 TB (NaN%)" := by
  decide

/-- Claim C6: for every snapshot with a positive memory total the computed
percentage is exactly `used_memory / total_memory * 100` (the model is
exact, hence within floating-point tolerance), and it lies in `[0, 100]`
whenever `used_memory ≤ total_memory`. -/
theorem memory_percent_formula (info : SystemInformation) (h : 0 < info.total_memory) :
    (memory_usage_percentage info).value
        = some ((info.used_memory : ℚ) / (info.total_memory : ℚ) * 100)
    ∧ (info.used_memory ≤ info.total_memory →
        0 ≤ (info.used_memory : ℚ) / (info.total_memory : ℚ) * 100
        ∧ (info.used_memory : ℚ) / (info.total_memory : ℚ) * 100 ≤ 100) := by
  refine ⟨?_, fun hle => percent_bounds _ _ h hle⟩
  rw [memory_usage_percentage]
  exact percent_value _ _ h

/-- Witness for claim C6 at the sample snapshot (512 used of 1024 total). -/
theorem memory_percent_formula_witness :
    0 < sampleInformation.total_memory
    ∧ sampleInformation.used_memory ≤ sampleInformation.total_memory
    ∧ (memory_usage_percentage sampleInformation).value
        = some ((sampleInformation.used_memory : ℚ) / (sampleInformation.total_memory : ℚ) * 100)
    ∧ (0 ≤ (sampleInformation.used_memory : ℚ) / (sampleInformation.total_memory : ℚ) * 100
        ∧ (sampleInformation.used_memory : ℚ) / (sampleInformation.total_memory : ℚ) * 100
            ≤ 100) := by
  have h := memory_percent_formula sampleInformation (by decide)
  exact ⟨by decide, by decide, h.1, h.2 (by decide)⟩

/-- Claim C7: toggling the CPU detail in a `Loaded` state flips the flag,
keeps the snapshot, leaves the log file untouched and prints nothing, and
applying it twice from `show_cpu_usage = false` returns to the same state
(involution). -/
theorem toggle_cpu_usage_involution : ∀ (info : SystemInformation) (b : Bool) (sys : Sys)
    (logFails : Bool) (hour minute : Nat) (fs : Option String),
    update (Task.Loaded info b) .CpuUsage sys logFails hour minute fs
        = (Task.Loaded info (!b), fs, [])
    ∧ (update ((update (Task.Loaded info false) .CpuUsage sys logFails hour minute fs).1)
        .CpuUsage sys logFails hour minute fs).1 = Task.Loaded info false := by
  intro info b sys logFails hour minute fs
  constructor <;> simp [update]

/-- Claim C8: toggling the CPU detail in the `Loading` state (the spec's
`NotLoaded`) is a no-op: the state stays `Loading`, the log file and the
printed output are untouched. -/
theorem toggle_cpu_usage_not_loaded_noop : ∀ (sys : Sys) (logFails : Bool)
    (hour minute : Nat) (fs : Option String),
    update Task.Loading .CpuUsage sys logFails hour minute fs = (Task.Loading, fs, []) := by
  intro sys logFails hour minute fs
  simp [update]

/-- Claim C9: the interactive view and the log record agree item by item:
after the view's fixed indentation, the view's memory, swap, per-core CPU,
per-disk and per-interface lines are textually identical to the log
writer's lines and items (same divisors, formulas, two-decimal formatting
and 1-based CPU numbering). -/
theorem view_log_agreement : ∀ (info : SystemInformation) (i : Nat) (usage : FVal)
    (name : String) (total used received transmitted : Nat),
    view_memory_line info = "   " ++ log_memory_line info
    ∧ view_swap_line info = "   " ++ log_swap_line info
    ∧ view_cpu_line i usage = "          " ++ log_cpu_item i usage
    ∧ view_disk_line name total used = "           " ++ log_disk_item (name, total, used)
    ∧ view_network_line name received transmitted
        = "           " ++ log_network_item (name, received, transmitted) := by
  intro info i usage name total used received transmitted
  refine ⟨?_, ?_, ?_, ?_, ?_⟩
  · simp only [view_memory_line, log_memory_line, memory_usage_percentage,
      show ("   Memory: used " : String) = "   " ++ "Memory: used " from rfl,
      String.append_assoc]
  · simp only [view_swap_line, log_swap_line, swap_usage_percentage,
      show ("   Swap: used " : String) = "   " ++ "Swap: used " from rfl,
      String.append_assoc]
  · simp only [view_cpu_line, log_cpu_item,
      show ("          CPU " : String) = "          " ++ "CPU " from rfl,
      String.append_assoc]
  · simp only [view_disk_line, log_disk_item, disk_usage_percentage, String.append_assoc]
  · simp only [view_network_line, log_network_item, String.append_assoc]

/-- Claim C10: the snapshot builder computes each disk's used space as the
unchecked 64-bit subtraction `total_space - available_space`; whenever each
disk's available space is at most its total (and the total fits in 64
bits), the subtraction does not wrap, the built used space is at most the
total, and the disk percentage of a positive total is at most 100. -/
theorem disk_used_space_no_underflow (sys : Sys)
    (h : ∀ d ∈ sys.disks, d.available_space ≤ d.total_space ∧ d.total_space < 2 ^ 64) :
    (∀ d ∈ sys.disks, sub64 d.total_space d.available_space
        = d.total_space - d.available_space)
    ∧ (∀ x ∈ (buildInformation sys).disks,
        x.2.2 ≤ x.2.1
        ∧ (0 < x.2.1 →
            (disk_usage_percentage x.2.1 x.2.2).value
                = some ((x.2.2 : ℚ) / (x.2.1 : ℚ) * 100)
            ∧ (x.2.2 : ℚ) / (x.2.1 : ℚ) * 100 ≤ 100)) := by
  have hsub : ∀ d ∈ sys.disks, sub64 d.total_space d.available_space
      = d.total_space - d.available_space := by
    intro d hd
    obtain ⟨h1, h2⟩ := h d hd
    unfold sub64
    have h64 : (2 : Int) ^ 64 = 18446744073709551616 := by norm_num
    rw [h64]
    omega
  refine ⟨hsub, ?_⟩
  intro x hx
  simp only [buildInformation, List.mem_map] at hx
  obtain ⟨d, hd, rfl⟩ := hx
  dsimp only
  have hle : sub64 d.total_space d.available_space ≤ d.total_space := by
    rw [hsub d hd]
    omega
  refine ⟨hle, fun hpos => ?_⟩
  exact ⟨by rw [disk_usage_percentage]; exact percent_value _ _ hpos,
    (percent_bounds _ _ hpos hle).2⟩

/-- Witness for claim C10 at the sample provider output (one disk of 1 GiB
with half available). -/
theorem disk_used_space_no_underflow_witness :
    (∀ d ∈ sampleSys.disks, d.available_space ≤ d.total_space ∧ d.total_space < 2 ^ 64)
    ∧ ((∀ d ∈ sampleSys.disks, sub64 d.total_space d.available_space
          = d.total_space - d.available_space)
      ∧ (∀ x ∈ (buildInformation sampleSys).disks,
          x.2.2 ≤ x.2.1
          ∧ (0 < x.2.1 →
              (disk_usage_percentage x.2.1 x.2.2).value
                  = some ((x.2.2 : ℚ) / (x.2.1 : ℚ) * 100)
              ∧ (x.2.2 : ℚ) / (x.2.1 : ℚ) * 100 ≤ 100))) :=
  ⟨by decide, disk_used_space_no_underflow sampleSys (by decide)⟩

end SysMon
